import Mathlib

/-!
Verification development for the AutomationExercise API test runner
(`src/api_test_runner.py`).

The script is a straight-line black-box test suite: it issues 14 HTTP
requests against a fixed base URL, normalizes each response body with
`safe_json`, evaluates one or two `assert_true` checks per case, records one
`TestResult` per case via `run_test`, and exits 0 iff every recorded result
passed.

Shallow embedding choices:
- A parsed JSON body is a `Json` value with integer numerals (the service's
  application-level `responseCode` fields are integers).  A `Response`
  carries its HTTP status code, its raw body text, and `jsonBody`, the
  outcome of attempting to JSON-parse the body (`none` when the body is not
  valid JSON, in which case Python's `resp.json()` raises).
- Python's `str(...)` rendering of a parsed body (used by the substring
  checks such as `"not supported" in str(data).lower()`) is modelled by
  `pyStr`/`pyRepr`, for values whose strings contain no characters that
  Python's `repr` would escape (the bodies relevant here contain none).
- Fallible operations return `Except String α`, the error string standing
  for Python's `str(e)` of the raised exception.  `data.get(key)` on a
  non-`dict` value raises `AttributeError`; `dictGet` reproduces that.
- A run's network environment is an `Env`: the outcome of each of the 14
  HTTP calls (a `Response`, or the text of a transport exception).  The
  outcome of each per-case log write (the `log` call inside `run_test`'s
  `try` block) is a `LogEnv`; the handler's own log write and the two
  summary log writes are modelled as succeeding (their failure would kill
  the process by an uncaught exception, outside this embedding).
-/

/-- Parsed JSON values as produced by Python's `json.loads` / `resp.json()`:
`None`, `bool`, `int`, `str`, `list`, `dict` (numerals restricted to
integers). -/
inductive Json where
  | null : Json
  | bool (b : Bool) : Json
  | num (n : Int) : Json
  | str (s : String) : Json
  | arr (elems : List Json) : Json
  | obj (entries : List (String × Json)) : Json

/-- A raw HTTP response: status code, body text, and the result of
attempting to parse the body as JSON (`none` = the body is not valid JSON,
so `resp.json()` raises). -/
structure Response where
  status_code : Nat
  text : String
  jsonBody : Option Json

/-- One recorded test outcome, mirroring the `TestResult` dataclass. -/
structure TestResult where
  name : String
  passed : Bool
  details : String
deriving Repr, DecidableEq

/-- `resp.json()` wrapped as in the source: the parsed body when parsing
succeeds, otherwise the sentinel single-entry mapping `{"_raw": resp.text}`. -/
def safe_json (resp : Response) : Json :=
  match resp.jsonBody with
  | some j => j
  | none => Json.obj [("_raw", Json.str resp.text)]

/-- `assert_true(condition, ok, fail)` from the source: `(True, ok)` when the
condition holds, `(False, fail)` otherwise. -/
def assert_true (condition : Bool) (ok : String) (fail : String) : Bool × String :=
  if condition then (true, ok) else (false, fail)

/-- Python's type name of a parsed JSON value, as it appears in
`AttributeError` messages. -/
def pyTypeName : Json → String
  | Json.null => "NoneType"
  | Json.bool _ => "bool"
  | Json.num _ => "int"
  | Json.str _ => "str"
  | Json.arr _ => "list"
  | Json.obj _ => "dict"

/-- `data.get(key)` : on a `dict`, the value at `key` (`None`, i.e. `none`,
when absent); on any other value it raises `AttributeError`, whose `str` is
the returned error message. -/
def dictGet (data : Json) (key : String) : Except String (Option Json) :=
  match data with
  | Json.obj kvs => Except.ok ((kvs.find? (fun kv => kv.1 == key)).map (fun kv => kv.2))
  | other => Except.error ("\x27" ++ pyTypeName other ++ "\x27 object has no attribute \x27get\x27")

/-- `list(data.keys())` : the key list of a `dict`; raises `AttributeError`
on any other value (in the source it is only reached after a successful
`data.get`, hence only on a `dict`). -/
def dictKeys (data : Json) : Except String (List String) :=
  match data with
  | Json.obj kvs => Except.ok (kvs.map (fun kv => kv.1))
  | other => Except.error ("\x27" ++ pyTypeName other ++ "\x27 object has no attribute \x27keys\x27")

mutual

/-- Python `repr` of a parsed JSON value (strings assumed free of characters
that `repr` would escape). -/
def pyRepr : Json → String
  | Json.null => "None"
  | Json.bool true => "True"
  | Json.bool false => "False"
  | Json.num n => toString n
  | Json.str s => "\x27" ++ s ++ "\x27"
  | Json.arr elems => "[" ++ pyReprElems elems ++ "]"
  | Json.obj entries => "\x7b" ++ pyReprEntries entries ++ "\x7d"

/-- Comma-joined `repr`s of the elements of a Python list. -/
def pyReprElems : List Json → String
  | [] => ""
  | [x] => pyRepr x
  | x :: rest => pyRepr x ++ ", " ++ pyReprElems rest

/-- Comma-joined `'key': repr(value)` renderings of a Python dict's entries. -/
def pyReprEntries : List (String × Json) → String
  | [] => ""
  | [kv] => "\x27" ++ kv.1 ++ "\x27: " ++ pyRepr kv.2
  | kv :: rest => "\x27" ++ kv.1 ++ "\x27: " ++ pyRepr kv.2 ++ ", " ++ pyReprEntries rest

end

/-- Python `str` of a parsed JSON value: the string itself for a `str`,
`repr` for every other value (`str` of a container uses `repr` of its
elements). -/
def pyStr : Json → String
  | Json.str s => s
  | other => pyRepr other

/-- Python `f"{list(data.keys())}"`: the `repr` of a list of strings. -/
def pyReprStrList (keys : List String) : String :=
  "[" ++ String.intercalate ", " (keys.map (fun k => "\x27" ++ k ++ "\x27")) ++ "]"

/-- Python `.lower()` (ASCII case folding suffices for the phrases checked). -/
def lowerStr (s : String) : String := String.mk (s.data.map Char.toLower)

/-- Whether `pat` starts the character list `cs`. -/
def startsWithChars : List Char → List Char → Bool
  | [], _ => true
  | _ :: _, [] => false
  | p :: ps, c :: cs => p == c && startsWithChars ps cs

/-- Whether `pat` occurs as a contiguous run inside `cs`. -/
def charsHaveSub (pat : List Char) : List Char → Bool
  | [] => pat.isEmpty
  | c :: cs => startsWithChars pat (c :: cs) || charsHaveSub pat cs

/-- Python's `pat in hay` on strings: substring containment. -/
def containsSub (hay : String) (pat : String) : Bool :=
  charsHaveSub pat.data hay.data

/-- Python `v == n` for `v` the result of `data.get(...)` and `n` an integer
literal: true exactly for the equal `int` (and for `bool`, since Python's
`True == 1`); `None` and every other type compare unequal. -/
def pyEqInt (v : Option Json) (n : Int) : Bool :=
  match v with
  | some (Json.num m) => m == n
  | some (Json.bool b) => (if b then (1 : Int) else 0) == n
  | _ => false

/-- Python `key in data` for a parsed JSON value: key membership for a
`dict`, element membership for a `list`, substring for a `str` (in the
source it is only reached on a `dict`). -/
def pyInKey (key : String) (data : Json) : Bool :=
  match data with
  | Json.obj kvs => kvs.any (fun kv => kv.1 == key)
  | Json.arr elems => elems.any (fun e => match e with | Json.str s => s == key | _ => false)
  | Json.str s => containsSub s key
  | _ => false

/-- `run_test` from the source.  `fnOutcome` is the outcome of calling the
test-case function (`Except.error e` = it raised, `e` the exception's
`str`); `logOutcome` is the outcome of the per-case log write inside the
`try` block.  The source appends the result BEFORE logging, so a failing
log write leaves the first result in place and the `except` handler appends
a second, failed result carrying the log exception's text. -/
def run_test (results : List TestResult) (name : String)
    (fnOutcome : Except String (Bool × String))
    (logOutcome : Except String Unit) : List TestResult :=
  match fnOutcome with
  | Except.ok (passed, details) =>
    match logOutcome with
    | Except.ok _ => results ++ [⟨name, passed, details⟩]
    | Except.error e => results ++ [⟨name, passed, details⟩, ⟨name, false, e⟩]
  | Except.error e => results ++ [⟨name, false, e⟩]

/-- The single `TestResult` that a `run_test` invocation records when the
per-case log write succeeds. -/
def recordOf (name : String) (fnOutcome : Except String (Bool × String)) : TestResult :=
  match fnOutcome with
  | Except.ok (passed, details) => ⟨name, passed, details⟩
  | Except.error e => ⟨name, false, e⟩

/-- Whether a parsed JSON value is a string-keyed mapping (a Python `dict`). -/
def isMapping : Json → Bool
  | Json.obj _ => true
  | _ => false

/-- Python `isinstance(v, list)` for `v` the result of `data.get(...)`. -/
def isInstList (v : Option Json) : Bool :=
  match v with
  | some (Json.arr _) => true
  | _ => false

/-- `t01_get_products_list`: GET productsList; asserts HTTP 200 and a list
under the `products` key.  Raises (propagating `AttributeError`) if
`safe_json` yields a non-`dict` value, as `data.get` does in the source. -/
def t01_get_products_list (r : Response) : Except String (Bool × String) := do
  let data := safe_json r
  let (ok1, d1) := assert_true (r.status_code == 200) "200 OK"
    ("Expected 200, got " ++ toString r.status_code)
  let got ← dictGet data "products"
  let keys ← dictKeys data
  let (ok2, d2) := assert_true (isInstList got) "products[] present"
    ("products[] missing, keys=" ++ pyReprStrList keys)
  return (ok1 && ok2, d1 ++ "; " ++ d2)

/-- `t02_products_list_post_not_supported`: POST productsList (method
negative); accepts HTTP 405 or 200, and `responseCode == 405` or the phrase
`not supported` inside the lower-cased `str(data)`. -/
def t02_products_list_post_not_supported (r : Response) : Except String (Bool × String) := do
  let data := safe_json r
  let (ok1, d1) := assert_true ((r.status_code == 405) || (r.status_code == 200))
    ("Status " ++ toString r.status_code) ("Unexpected status " ++ toString r.status_code)
  let rc ← dictGet data "responseCode"
  let (ok2, d2) := assert_true (pyEqInt rc 405 || containsSub (lowerStr (pyStr data)) "not supported")
    "405 not supported" ("Expected not supported, got " ++ pyStr data)
  return (ok1 && ok2, d1 ++ "; " ++ d2)

/-- `t03_get_brands_list`: GET brandsList; asserts HTTP 200 and a list under
the `brands` key. -/
def t03_get_brands_list (r : Response) : Except String (Bool × String) := do
  let data := safe_json r
  let (ok1, d1) := assert_true (r.status_code == 200) "200 OK"
    ("Expected 200, got " ++ toString r.status_code)
  let got ← dictGet data "brands"
  let keys ← dictKeys data
  let (ok2, d2) := assert_true (isInstList got) "brands[] present"
    ("brands[] missing, keys=" ++ pyReprStrList keys)
  return (ok1 && ok2, d1 ++ "; " ++ d2)

/-- `t04_brands_list_put_not_supported`: PUT brandsList (method negative);
same acceptance policy as case 2. -/
def t04_brands_list_put_not_supported (r : Response) : Except String (Bool × String) := do
  let data := safe_json r
  let (ok1, d1) := assert_true ((r.status_code == 405) || (r.status_code == 200))
    ("Status " ++ toString r.status_code) ("Unexpected status " ++ toString r.status_code)
  let rc ← dictGet data "responseCode"
  let (ok2, d2) := assert_true (pyEqInt rc 405 || containsSub (lowerStr (pyStr data)) "not supported")
    "405 not supported" ("Expected not supported, got " ++ pyStr data)
  return (ok1 && ok2, d1 ++ "; " ++ d2)

/-- `t05_search_product_valid`: POST searchProduct with a parameter; asserts
HTTP 200 and a `products` list. -/
def t05_search_product_valid (r : Response) : Except String (Bool × String) := do
  let data := safe_json r
  let (ok1, d1) := assert_true (r.status_code == 200) "200 OK"
    ("Expected 200, got " ++ toString r.status_code)
  let got ← dictGet data "products"
  let keys ← dictKeys data
  let (ok2, d2) := assert_true (isInstList got) "products[] present"
    ("products[] missing, keys=" ++ pyReprStrList keys)
  return (ok1 && ok2, d1 ++ "; " ++ d2)

/-- `t06_search_product_missing_param`: POST searchProduct with no body;
accepts HTTP 200 or 400, and `responseCode == 400` or the word `missing`. -/
def t06_search_product_missing_param (r : Response) : Except String (Bool × String) := do
  let data := safe_json r
  let (ok1, d1) := assert_true ((r.status_code == 200) || (r.status_code == 400))
    ("HTTP " ++ toString r.status_code) ("Unexpected http " ++ toString r.status_code)
  let rc ← dictGet data "responseCode"
  let (ok2, d2) := assert_true (pyEqInt rc 400 || containsSub (lowerStr (pyStr data)) "missing")
    "400 missing param" ("Expected missing param error, got " ++ pyStr data)
  return (ok1 && ok2, d1 ++ "; " ++ d2)

/-- `t07_create_account`: POST createAccount with the user payload; accepts
HTTP 201 or 200, and `responseCode in (201, 200)` or the word `created`. -/
def t07_create_account (r : Response) : Except String (Bool × String) := do
  let data := safe_json r
  let (ok1, d1) := assert_true ((r.status_code == 201) || (r.status_code == 200))
    ("HTTP " ++ toString r.status_code) ("Expected 201/200, got " ++ toString r.status_code)
  let rc ← dictGet data "responseCode"
  let (ok2, d2) := assert_true ((pyEqInt rc 201 || pyEqInt rc 200) || containsSub (lowerStr (pyStr data)) "created")
    "User created" ("Expected created, got " ++ pyStr data)
  return (ok1 && ok2, d1 ++ "; " ++ d2)

/-- `t08_verify_login_valid`: POST verifyLogin with the run's credentials;
asserts HTTP 200, and `responseCode == 200` or the word `exists`. -/
def t08_verify_login_valid (r : Response) : Except String (Bool × String) := do
  let data := safe_json r
  let (ok1, d1) := assert_true (r.status_code == 200) "200 OK"
    ("Expected 200, got " ++ toString r.status_code)
  let rc ← dictGet data "responseCode"
  let (ok2, d2) := assert_true (pyEqInt rc 200 || containsSub (lowerStr (pyStr data)) "exists")
    "User exists" ("Expected user exists, got " ++ pyStr data)
  return (ok1 && ok2, d1 ++ "; " ++ d2)

/-- `t09_verify_login_invalid`: POST verifyLogin with a wrong password;
accepts HTTP 200 or 404, and `responseCode == 404` or `not found`. -/
def t09_verify_login_invalid (r : Response) : Except String (Bool × String) := do
  let data := safe_json r
  let (ok1, d1) := assert_true ((r.status_code == 200) || (r.status_code == 404))
    ("HTTP " ++ toString r.status_code) ("Unexpected http " ++ toString r.status_code)
  let rc ← dictGet data "responseCode"
  let (ok2, d2) := assert_true (pyEqInt rc 404 || containsSub (lowerStr (pyStr data)) "not found")
    "User not found" ("Expected user not found, got " ++ pyStr data)
  return (ok1 && ok2, d1 ++ "; " ++ d2)

/-- `t10_verify_login_missing_email`: POST verifyLogin without an email;
accepts HTTP 200 or 400, and `responseCode == 400` or `missing`. -/
def t10_verify_login_missing_email (r : Response) : Except String (Bool × String) := do
  let data := safe_json r
  let (ok1, d1) := assert_true ((r.status_code == 200) || (r.status_code == 400))
    ("HTTP " ++ toString r.status_code) ("Unexpected http " ++ toString r.status_code)
  let rc ← dictGet data "responseCode"
  let (ok2, d2) := assert_true (pyEqInt rc 400 || containsSub (lowerStr (pyStr data)) "missing")
    "400 missing param" ("Expected missing param error, got " ++ pyStr data)
  return (ok1 && ok2, d1 ++ "; " ++ d2)

/-- `t11_verify_login_delete_not_supported`: DELETE verifyLogin (method
negative); accepts HTTP 200 or 405, and `responseCode == 405` or
`not supported`. -/
def t11_verify_login_delete_not_supported (r : Response) : Except String (Bool × String) := do
  let data := safe_json r
  let (ok1, d1) := assert_true ((r.status_code == 200) || (r.status_code == 405))
    ("HTTP " ++ toString r.status_code) ("Unexpected http " ++ toString r.status_code)
  let rc ← dictGet data "responseCode"
  let (ok2, d2) := assert_true (pyEqInt rc 405 || containsSub (lowerStr (pyStr data)) "not supported")
    "405 not supported" ("Expected not supported, got " ++ pyStr data)
  return (ok1 && ok2, d1 ++ "; " ++ d2)

/-- `t12_get_user_detail_by_email`: GET getUserDetailByEmail; asserts HTTP
200, and `responseCode == 200` or the key `user` present or `email` in the
lower-cased `str(data)`. -/
def t12_get_user_detail_by_email (r : Response) : Except String (Bool × String) := do
  let data := safe_json r
  let (ok1, d1) := assert_true (r.status_code == 200) "200 OK"
    ("Expected 200, got " ++ toString r.status_code)
  let rc ← dictGet data "responseCode"
  let (ok2, d2) := assert_true ((pyEqInt rc 200 || pyInKey "user" data) || containsSub (lowerStr (pyStr data)) "email")
    "User detail present" ("Expected user detail, got " ++ pyStr data)
  return (ok1 && ok2, d1 ++ "; " ++ d2)

/-- `t13_update_account_put`: PUT updateAccount with the mutated payload;
accepts HTTP 200 or 201, and `responseCode == 200` or `updated`. -/
def t13_update_account_put (r : Response) : Except String (Bool × String) := do
  let data := safe_json r
  let (ok1, d1) := assert_true ((r.status_code == 200) || (r.status_code == 201))
    ("HTTP " ++ toString r.status_code) ("Expected 200, got " ++ toString r.status_code)
  let rc ← dictGet data "responseCode"
  let (ok2, d2) := assert_true (pyEqInt rc 200 || containsSub (lowerStr (pyStr data)) "updated")
    "User updated" ("Expected updated, got " ++ pyStr data)
  return (ok1 && ok2, d1 ++ "; " ++ d2)

/-- `cleanup_delete_account`: DELETE deleteAccount with the run's
credentials; asserts HTTP 200, and `responseCode == 200` or `deleted`. -/
def cleanup_delete_account (r : Response) : Except String (Bool × String) := do
  let data := safe_json r
  let (ok1, d1) := assert_true (r.status_code == 200) "200 OK"
    ("Expected 200, got " ++ toString r.status_code)
  let rc ← dictGet data "responseCode"
  let (ok2, d2) := assert_true (pyEqInt rc 200 || containsSub (lowerStr (pyStr data)) "deleted")
    "Account deleted" ("Expected deleted, got " ++ pyStr data)
  return (ok1 && ok2, d1 ++ "; " ++ d2)

/-- The fixed base URL of the service under test. -/
def BASE_URL : String := "https://automationexercise.com"

/-- The API root, `f"{BASE_URL}/api"`. -/
def API : String := BASE_URL ++ "/api"

/-- The per-run user payload as an ordered key/value mapping (Python dicts
preserve insertion order); `email` and `password` carry the run's unique
generated values. -/
def user_payload (email : String) (password : String) : List (String × String) :=
  [("name", "Fazli Test"),
   ("email", email),
   ("password", password),
   ("title", "Mr"),
   ("birth_date", "12"),
   ("birth_month", "01"),
   ("birth_year", "2005"),
   ("firstname", "Fazli"),
   ("lastname", "Usmonov"),
   ("company", "BTEC"),
   ("address1", "Tashkent"),
   ("address2", "N/A"),
   ("country", "Uzbekistan"),
   ("zipcode", "100000"),
   ("state", "Tashkent"),
   ("city", "Tashkent"),
   ("mobile_number", "+998900000000")]

/-- Python `d[k] = v` on a (copied) dict: replaces the value in place when
the key exists, appends the entry otherwise. -/
def dictSet (d : List (String × String)) (k : String) (v : String) : List (String × String) :=
  if d.any (fun kv => kv.1 == k) then
    d.map (fun kv => if kv.1 == k then (k, v) else kv)
  else
    d ++ [(k, v)]

/-- Python `d.get(k)` on a string/string dict. -/
def dlookup (d : List (String × String)) (k : String) : Option String :=
  (d.find? (fun kv => kv.1 == k)).map (fun kv => kv.2)

/-- An outgoing HTTP request: method, URL and form data. -/
structure Request where
  method : String
  url : String
  formData : List (String × String)

/-- The request sent by `t13_update_account_put`: a copy of the user payload
with the `company` field overwritten (`updated = dict(user_payload);
updated["company"] = "BTEC_UPDATED"`), PUT to updateAccount. -/
def t13_request (payload : List (String × String)) : Request :=
  ⟨"PUT", API ++ "/updateAccount", dictSet payload "company" "BTEC_UPDATED"⟩

/-- The request sent by `cleanup_delete_account`: DELETE deleteAccount with
the run's startup `email` and `password` variables. -/
def cleanup_request (email : String) (password : String) : Request :=
  ⟨"DELETE", API ++ "/deleteAccount", [("email", email), ("password", password)]⟩

/-- A run's network environment: the outcome of each of the 14 HTTP calls in
program order (`Except.error e` = the call raised a transport exception with
`str(e) = e`). -/
structure Env where
  c01 : Except String Response
  c02 : Except String Response
  c03 : Except String Response
  c04 : Except String Response
  c05 : Except String Response
  c06 : Except String Response
  c07 : Except String Response
  c08 : Except String Response
  c09 : Except String Response
  c10 : Except String Response
  c11 : Except String Response
  c12 : Except String Response
  c13 : Except String Response
  c14 : Except String Response

/-- The outcomes of the 14 per-case log writes (the `log` call inside
`run_test`'s `try` block), in program order. -/
structure LogEnv where
  l01 : Except String Unit
  l02 : Except String Unit
  l03 : Except String Unit
  l04 : Except String Unit
  l05 : Except String Unit
  l06 : Except String Unit
  l07 : Except String Unit
  l08 : Except String Unit
  l09 : Except String Unit
  l10 : Except String Unit
  l11 : Except String Unit
  l12 : Except String Unit
  l13 : Except String Unit
  l14 : Except String Unit

/-- The log environment of a run in which every per-case log write succeeds. -/
def allLogsOk : LogEnv :=
  ⟨Except.ok (), Except.ok (), Except.ok (), Except.ok (), Except.ok (), Except.ok (),
   Except.ok (), Except.ok (), Except.ok (), Except.ok (), Except.ok (), Except.ok (),
   Except.ok (), Except.ok ()⟩

/-- Runs one test-case function against the outcome of its HTTP call: a
transport exception propagates out of the function (to be caught by
`run_test`), otherwise the function consumes the response. -/
def runCase (fn : Response → Except String (Bool × String))
    (call : Except String Response) : Except String (Bool × String) :=
  match call with
  | Except.error e => Except.error e
  | Except.ok r => fn r

/-- The 14 test-case names, in the exact order `main` executes them. -/
def caseNames : List String :=
  ["API 1 - GET /api/productsList returns products",
   "API 2 - POST /api/productsList not supported (negative)",
   "API 3 - GET /api/brandsList returns brands",
   "API 4 - PUT /api/brandsList not supported (negative)",
   "API 5 - POST /api/searchProduct with parameter returns results",
   "API 6 - POST /api/searchProduct without parameter returns error (negative)",
   "API 11 - POST /api/createAccount creates user",
   "API 7 - POST /api/verifyLogin valid credentials",
   "API 10 - POST /api/verifyLogin invalid credentials (negative)",
   "API 8 - POST /api/verifyLogin missing email (negative)",
   "API 9 - DELETE /api/verifyLogin not supported (negative)",
   "API 14 - GET /api/getUserDetailByEmail returns details",
   "API 13 - PUT /api/updateAccount updates user",
   "API 12 - DELETE /api/deleteAccount deletes user (cleanup)"]

/-- The body of `main` after the log file is open: the 14 `run_test` calls
in program order, threading the shared `results` list. -/
def mainResults (env : Env) (lg : LogEnv) : List TestResult :=
  let rs : List TestResult := []
  let rs := run_test rs "API 1 - GET /api/productsList returns products"
    (runCase t01_get_products_list env.c01) lg.l01
  let rs := run_test rs "API 2 - POST /api/productsList not supported (negative)"
    (runCase t02_products_list_post_not_supported env.c02) lg.l02
  let rs := run_test rs "API 3 - GET /api/brandsList returns brands"
    (runCase t03_get_brands_list env.c03) lg.l03
  let rs := run_test rs "API 4 - PUT /api/brandsList not supported (negative)"
    (runCase t04_brands_list_put_not_supported env.c04) lg.l04
  let rs := run_test rs "API 5 - POST /api/searchProduct with parameter returns results"
    (runCase t05_search_product_valid env.c05) lg.l05
  let rs := run_test rs "API 6 - POST /api/searchProduct without parameter returns error (negative)"
    (runCase t06_search_product_missing_param env.c06) lg.l06
  let rs := run_test rs "API 11 - POST /api/createAccount creates user"
    (runCase t07_create_account env.c07) lg.l07
  let rs := run_test rs "API 7 - POST /api/verifyLogin valid credentials"
    (runCase t08_verify_login_valid env.c08) lg.l08
  let rs := run_test rs "API 10 - POST /api/verifyLogin invalid credentials (negative)"
    (runCase t09_verify_login_invalid env.c09) lg.l09
  let rs := run_test rs "API 8 - POST /api/verifyLogin missing email (negative)"
    (runCase t10_verify_login_missing_email env.c10) lg.l10
  let rs := run_test rs "API 9 - DELETE /api/verifyLogin not supported (negative)"
    (runCase t11_verify_login_delete_not_supported env.c11) lg.l11
  let rs := run_test rs "API 14 - GET /api/getUserDetailByEmail returns details"
    (runCase t12_get_user_detail_by_email env.c12) lg.l12
  let rs := run_test rs "API 13 - PUT /api/updateAccount updates user"
    (runCase t13_update_account_put env.c13) lg.l13
  let rs := run_test rs "API 12 - DELETE /api/deleteAccount deletes user (cleanup)"
    (runCase cleanup_delete_account env.c14) lg.l14
  rs

/-- `passed = sum(1 for r in results if r.passed)`. -/
def passedCount (results : List TestResult) : Nat :=
  (results.filter (fun r => r.passed)).length

/-- `total = len(results)`, the total the summary line reports. -/
def summaryTotal (env : Env) (lg : LogEnv) : Nat :=
  (mainResults env lg).length

/-- The process exit code `main` sets: `sys.exit(1)` when `passed != total`,
else `sys.exit(0)`. -/
def exitCode (results : List TestResult) : Nat :=
  if passedCount results != results.length then 1 else 0

/-- A response whose body is the empty JSON object (used to exhibit a test
function returning normally). -/
def c2FirstCallResp : Response := ⟨200, "\x7b\x7d", some (Json.obj [])⟩

/-- A run in which the first HTTP call yields an empty-object body and every
later call raises a transport exception. -/
def c2Env : Env :=
  ⟨Except.ok c2FirstCallResp,
   Except.error "connection error", Except.error "connection error",
   Except.error "connection error", Except.error "connection error",
   Except.error "connection error", Except.error "connection error",
   Except.error "connection error", Except.error "connection error",
   Except.error "connection error", Except.error "connection error",
   Except.error "connection error", Except.error "connection error",
   Except.error "connection error"⟩

/-- A log environment in which the first per-case log write raises (e.g. a
transient I/O error on `fp.write`) and the rest succeed. -/
def c2Logs : LogEnv :=
  ⟨Except.error "disk full", Except.ok (), Except.ok (), Except.ok (),
   Except.ok (), Except.ok (), Except.ok (), Except.ok (), Except.ok (),
   Except.ok (), Except.ok (), Except.ok (), Except.ok (), Except.ok ()⟩

/-- A response with an HTML (non-JSON) body. -/
def c3HtmlResp : Response := ⟨500, "<html>Server Error</html>", none⟩

/-- A response whose body parses to a JSON array, not an object. -/
def c4ArrResp : Response := ⟨200, "[1, 2]", some (Json.arr [Json.num 1, Json.num 2])⟩

/-- A response whose body parses to a JSON object. -/
def c4ObjResp : Response :=
  ⟨200, "\x7b\"responseCode\": 200\x7d", some (Json.obj [("responseCode", Json.num 200)])⟩

/-- A 200 response whose body parses to the empty JSON array. -/
def c6ArrResp : Response := ⟨200, "[]", some (Json.arr [])⟩

/-- A 200 response whose body holds an empty `products` list. -/
def c6ObjResp : Response :=
  ⟨200, "\x7b\"products\": []\x7d", some (Json.obj [("products", Json.arr [])])⟩

/-- A 200 response whose body parses to a JSON array containing the phrase
`not supported`. -/
def c9ArrResp : Response :=
  ⟨200, "[\"not supported\"]", some (Json.arr [Json.str "not supported"])⟩

/-- A 405 response whose body is the service's canonical method-negative
object. -/
def c9ObjResp : Response :=
  ⟨405, "\x7b\"responseCode\": 405, \"message\": \"This request method is not supported.\"\x7d",
   some (Json.obj [("responseCode", Json.num 405),
                   ("message", Json.str "This request method is not supported.")])⟩

theorem assert_true_eq (c : Bool) (ok fail : String) :
    assert_true c ok fail = (c, if c then ok else fail) := by
  cases c <;> rfl

theorem run_test_logOk (rs : List TestResult) (n : String)
    (fn : Except String (Bool × String)) :
    run_test rs n fn (Except.ok ()) = rs ++ [recordOf n fn] := by
  rcases fn with e | ⟨p, d⟩ <;> rfl

theorem recordOf_name (n : String) (fn : Except String (Bool × String)) :
    (recordOf n fn).name = n := by
  rcases fn with e | ⟨p, d⟩ <;> rfl

theorem mainResults_allLogsOk_map_name (env : Env) :
    (mainResults env allLogsOk).map (fun r => r.name) = caseNames := by
  simp [mainResults, allLogsOk, run_test_logOk, recordOf_name, caseNames]

theorem mainResults_allLogsOk_length (env : Env) :
    (mainResults env allLogsOk).length = 14 := by
  have h := congrArg List.length (mainResults_allLogsOk_map_name env)
  simpa using h

theorem passedCount_eq_length_iff (rs : List TestResult) :
    passedCount rs = rs.length ↔ ∀ r ∈ rs, r.passed = true := by
  unfold passedCount
  constructor
  · intro h r hr
    have heq : rs.filter (fun r => r.passed) = rs :=
      (List.filter_sublist rs).eq_of_length h
    exact List.filter_eq_self.mp heq r hr
  · intro h
    rw [List.filter_eq_self.mpr h]

theorem exitCode_eq_zero_iff (rs : List TestResult) :
    exitCode rs = 0 ↔ ∀ r ∈ rs, r.passed = true := by
  rw [← passedCount_eq_length_iff]
  unfold exitCode
  by_cases h : passedCount rs = rs.length <;> simp [h]

theorem exitCode_eq_one_iff (rs : List TestResult) :
    exitCode rs = 1 ↔ ¬ ∀ r ∈ rs, r.passed = true := by
  rw [← passedCount_eq_length_iff]
  unfold exitCode
  by_cases h : passedCount rs = rs.length <;> simp [h]

/-- C1: when the orchestrator finishes (each per-case log write succeeding),
14 results are recorded, and the process exit code is 0 iff every recorded
`TestResult` has `passed = true`, and 1 otherwise. -/
theorem exit_code_zero_iff_all_passed (env : Env) :
    (mainResults env allLogsOk).length = 14 ∧
    (exitCode (mainResults env allLogsOk) = 0 ↔
      ∀ r ∈ mainResults env allLogsOk, r.passed = true) ∧
    (exitCode (mainResults env allLogsOk) = 1 ↔
      ¬ ∀ r ∈ mainResults env allLogsOk, r.passed = true) :=
  ⟨mainResults_allLogsOk_length env,
   exitCode_eq_zero_iff (mainResults env allLogsOk),
   exitCode_eq_one_iff (mainResults env allLogsOk)⟩

/-- C2 (counterexample): in a run where the first test function returns
normally but its per-case log write raises, the shared sequence receives two
`TestResult`s for that one case and the summary total is 15, not 14. -/
theorem summary_total_fifteen_on_log_failure :
    summaryTotal c2Env c2Logs = 15 ∧
    ((mainResults c2Env c2Logs).filter
      (fun r => r.name == "API 1 - GET /api/productsList returns products")).length = 2 :=
  ⟨rfl, rfl⟩

/-- C2 (amended): provided every per-case log write succeeds, each of the 14
test cases produces exactly one `TestResult` (the recorded names are exactly
the 14 pairwise-distinct case names, in order) and the summary total is 14. -/
theorem one_result_per_case_when_logs_ok (env : Env) :
    summaryTotal env allLogsOk = 14 ∧
    (mainResults env allLogsOk).map (fun r => r.name) = caseNames ∧
    caseNames.Nodup :=
  ⟨mainResults_allLogsOk_length env, mainResults_allLogsOk_map_name env, by decide⟩

/-- C3: for every response whose body is not valid JSON, `safe_json` returns
the single-entry mapping holding the raw body text under the sentinel key
`_raw`, and every downstream `data.get` on that value succeeds (no
test-runner exception). -/
theorem safe_json_absorbs_parse_failure (r : Response) (h : r.jsonBody = none) :
    safe_json r = Json.obj [("_raw", Json.str r.text)] ∧
    ∀ k : String, ∃ v, dictGet (safe_json r) k = Except.ok v := by
  have hs : safe_json r = Json.obj [("_raw", Json.str r.text)] := by
    unfold safe_json
    rw [h]
  refine ⟨hs, fun k => ?_⟩
  rw [hs]
  exact ⟨_, rfl⟩

/-- C3 (witness): `safe_json` at a concrete HTML-body response. -/
theorem safe_json_absorbs_parse_failure_spot :
    safe_json c3HtmlResp = Json.obj [("_raw", Json.str "<html>Server Error</html>")] ∧
    ∃ v, dictGet (safe_json c3HtmlResp) "responseCode" = Except.ok v :=
  ⟨(safe_json_absorbs_parse_failure c3HtmlResp rfl).1,
   (safe_json_absorbs_parse_failure c3HtmlResp rfl).2 "responseCode"⟩

/-- C4 (counterexample): on a response whose body parses to a JSON array,
`safe_json` returns the array itself, which is not a mapping from string
keys. -/
theorem normalizer_output_not_mapping_on_array_body :
    safe_json c4ArrResp = Json.arr [Json.num 1, Json.num 2] ∧
    isMapping (safe_json c4ArrResp) = false :=
  ⟨rfl, rfl⟩

/-- C4 (amended): `safe_json` returns the parsed JSON body whenever parsing
succeeds and the `_raw` sentinel mapping otherwise; its output is a
string-keyed mapping exactly when parsing failed or the body parsed to a
JSON object. -/
theorem normalizer_returns_parsed_body_or_sentinel (r : Response) :
    (∀ j, r.jsonBody = some j → safe_json r = j) ∧
    (r.jsonBody = none → safe_json r = Json.obj [("_raw", Json.str r.text)]) ∧
    (isMapping (safe_json r) = true ↔
      r.jsonBody = none ∨ ∃ kvs, r.jsonBody = some (Json.obj kvs)) := by
  rcases hr : r.jsonBody with _ | j
  · refine ⟨fun j h => absurd h (by simp), fun _ => ?_, ?_⟩
    · simp [safe_json, hr]
    · simp [safe_json, hr, isMapping]
  · refine ⟨fun j' h => ?_, fun h => absurd h (by simp), ?_⟩
    · have hj : j = j' := by injection h
      subst hj
      simp [safe_json, hr]
    · have hs : safe_json r = j := by simp [safe_json, hr]
      rw [hs]
      cases j <;> simp [isMapping]

/-- C4 (witness): the amended statement at a concrete object-body response. -/
theorem normalizer_returns_parsed_body_spot :
    safe_json c4ObjResp = Json.obj [("responseCode", Json.num 200)] :=
  (normalizer_returns_parsed_body_or_sentinel c4ObjResp).1
    (Json.obj [("responseCode", Json.num 200)]) rfl

/-- C5: a test-case function that raises is recorded by `run_test` as a
failed result carrying the exception's text, the exception does not
propagate (whatever the log outcome on that path), and the run still
executes all 14 cases. -/
theorem exception_recorded_as_failure_and_run_continues :
    (∀ (rs : List TestResult) (n e : String) (lg : Except String Unit),
      run_test rs n (Except.error e) lg = rs ++ [⟨n, false, e⟩]) ∧
    ∀ env : Env, (mainResults env allLogsOk).length = 14 :=
  ⟨fun _ _ _ _ => rfl, mainResults_allLogsOk_length⟩

/-- C6 (counterexample): on a response whose body parses to a JSON array,
case 1's recorded result is the exception path: its first assertion holds
(HTTP 200, message `200 OK`), yet the recorded details is the
`AttributeError` text, which contains neither that message nor the `; `
concatenation separator — not the concatenation of the two assertion
messages the claim describes. -/
theorem assertion_concat_claim_fails_on_array_body :
    t01_get_products_list c6ArrResp =
      Except.error "\x27list\x27 object has no attribute \x27get\x27" ∧
    run_test [] "API 1 - GET /api/productsList returns products"
      (t01_get_products_list c6ArrResp) (Except.ok ()) =
      [⟨"API 1 - GET /api/productsList returns products", false,
        "\x27list\x27 object has no attribute \x27get\x27"⟩] ∧
    (c6ArrResp.status_code == 200) = true ∧
    containsSub "\x27list\x27 object has no attribute \x27get\x27" "200 OK" = false ∧
    containsSub "\x27list\x27 object has no attribute \x27get\x27" "; " = false :=
  ⟨rfl, rfl, rfl, rfl, rfl⟩

/-- C6 (amended): `assert_true` returns its condition paired with the
message selected by that condition, and — provided the normalized body is a
string-keyed mapping — a two-assertion case (case 1, the claim's cited
instance) returns the logical AND of the two assertion conditions as its
passed value and the `; `-joined concatenation of the two assertions'
selected messages as its details, each message present regardless of which
assertion passed or failed. -/
theorem two_assertion_and_and_message_concat :
    (∀ (c : Bool) (ok fail : String), assert_true c ok fail = (c, if c then ok else fail)) ∧
    (∀ (r : Response) (kvs : List (String × Json)), safe_json r = Json.obj kvs →
      t01_get_products_list r = Except.ok
        ((r.status_code == 200) &&
          isInstList ((kvs.find? (fun kv => kv.1 == "products")).map (fun kv => kv.2)),
         (assert_true (r.status_code == 200) "200 OK"
            ("Expected 200, got " ++ toString r.status_code)).2 ++ "; " ++
         (assert_true
            (isInstList ((kvs.find? (fun kv => kv.1 == "products")).map (fun kv => kv.2)))
            "products[] present"
            ("products[] missing, keys=" ++ pyReprStrList (kvs.map (fun kv => kv.1)))).2)) := by
  refine ⟨assert_true_eq, fun r kvs h => ?_⟩
  unfold t01_get_products_list
  rw [h]
  simp only [assert_true_eq, dictGet, dictKeys]
  rfl

/-- C6 (witness): the amended statement at a concrete object-body response
whose two assertions both pass. -/
theorem two_assertion_and_and_message_concat_spot :
    t01_get_products_list c6ObjResp = Except.ok (true, "200 OK; products[] present") := by
  have h := two_assertion_and_and_message_concat.2 c6ObjResp
    [("products", Json.arr [])] rfl
  exact h

/-- C7: for every environment (each per-case log write succeeding), the 14
cases are executed and recorded strictly in the fixed source order: the six
read-only product/brand/search checks first, then createAccount, verifyLogin
valid, verifyLogin wrong password, verifyLogin missing email, DELETE
verifyLogin, getUserDetailByEmail, updateAccount, and deleteAccount last. -/
theorem cases_recorded_in_fixed_order (env : Env) :
    (mainResults env allLogsOk).map (fun r => r.name) =
      ["API 1 - GET /api/productsList returns products",
       "API 2 - POST /api/productsList not supported (negative)",
       "API 3 - GET /api/brandsList returns brands",
       "API 4 - PUT /api/brandsList not supported (negative)",
       "API 5 - POST /api/searchProduct with parameter returns results",
       "API 6 - POST /api/searchProduct without parameter returns error (negative)",
       "API 11 - POST /api/createAccount creates user",
       "API 7 - POST /api/verifyLogin valid credentials",
       "API 10 - POST /api/verifyLogin invalid credentials (negative)",
       "API 8 - POST /api/verifyLogin missing email (negative)",
       "API 9 - DELETE /api/verifyLogin not supported (negative)",
       "API 14 - GET /api/getUserDetailByEmail returns details",
       "API 13 - PUT /api/updateAccount updates user",
       "API 12 - DELETE /api/deleteAccount deletes user (cleanup)"] :=
  mainResults_allLogsOk_map_name env

/-- C8: the update-account request sends the startup payload with exactly
the `company` entry rewritten (every other entry as in the startup payload);
the startup payload still carries the generated email and password, and the
final delete-account cleanup request uses exactly those startup credentials. -/
theorem update_payload_mutates_only_company (email password : String) :
    (t13_request (user_payload email password)).formData =
      (user_payload email password).map
        (fun kv => if kv.1 = "company" then (kv.1, "BTEC_UPDATED") else kv) ∧
    dlookup (user_payload email password) "company" = some "BTEC" ∧
    dlookup (t13_request (user_payload email password)).formData "company" =
      some "BTEC_UPDATED" ∧
    ("BTEC" : String) ≠ "BTEC_UPDATED" ∧
    (cleanup_request email password).formData = [("email", email), ("password", password)] ∧
    dlookup (user_payload email password) "email" = some email ∧
    dlookup (user_payload email password) "password" = some password := by
  refine ⟨rfl, rfl, rfl, by decide, rfl, rfl, rfl⟩

/-- C9 (counterexample): a 200 response whose body parses to a JSON array
containing the phrase `not supported` satisfies the claim's passing
condition (status in the tolerated set, body text carrying the phrase), yet
case 2 is recorded as failed: `data.get` raises `AttributeError` on the
array and the exception path records a failure. -/
theorem method_negative_claim_fails_on_array_body :
    t02_products_list_post_not_supported c9ArrResp =
      Except.error "\x27list\x27 object has no attribute \x27get\x27" ∧
    (c9ArrResp.status_code == 200) = true ∧
    containsSub (lowerStr c9ArrResp.text) "not supported" = true ∧
    containsSub (lowerStr (pyStr (safe_json c9ArrResp))) "not supported" = true ∧
    run_test [] "API 2 - POST /api/productsList not supported (negative)"
      (t02_products_list_post_not_supported c9ArrResp) (Except.ok ()) =
      [⟨"API 2 - POST /api/productsList not supported (negative)", false,
        "\x27list\x27 object has no attribute \x27get\x27"⟩] :=
  ⟨rfl, rfl, rfl, rfl, rfl⟩

/-- C9 (amended): provided the normalized body is a string-keyed mapping (as
it always is when the raw body is not valid JSON), case 2 passes iff the
HTTP status code is 405 or 200 and, additionally, the body's `responseCode`
field equals 405 or the lower-cased string rendering of the body contains
the phrase `not supported`. -/
theorem method_negative_pass_condition (r : Response) (kvs : List (String × Json))
    (h : safe_json r = Json.obj kvs) :
    ∃ d, t02_products_list_post_not_supported r = Except.ok
      ((((r.status_code == 405) || (r.status_code == 200)) &&
        (pyEqInt ((kvs.find? (fun kv => kv.1 == "responseCode")).map (fun kv => kv.2)) 405 ||
         containsSub (lowerStr (pyStr (Json.obj kvs))) "not supported")), d) := by
  unfold t02_products_list_post_not_supported
  rw [h]
  simp only [assert_true_eq, dictGet]
  exact ⟨_, rfl⟩

/-- C9 (witness): the amended statement at the service's canonical 405
method-negative response, where case 2 passes. -/
theorem method_negative_pass_condition_spot :
    ∃ d, t02_products_list_post_not_supported c9ObjResp = Except.ok (true, d) := by
  have h := method_negative_pass_condition c9ObjResp
    [("responseCode", Json.num 405),
     ("message", Json.str "This request method is not supported.")] rfl
  exact h

/-- C10: when a test function returns normally but the per-case log write
raises, `run_test` appends two `TestResult`s — first the function's outcome,
then a failed result holding the log exception's text; when the log write
succeeds, exactly one is appended. -/
theorem run_test_double_append_on_log_failure :
    (∀ (rs : List TestResult) (n : String) (p : Bool) (d e : String),
      run_test rs n (Except.ok (p, d)) (Except.error e) =
        rs ++ [⟨n, p, d⟩, ⟨n, false, e⟩]) ∧
    (∀ (rs : List TestResult) (n : String) (p : Bool) (d : String),
      run_test rs n (Except.ok (p, d)) (Except.ok ()) = rs ++ [⟨n, p, d⟩]) :=
  ⟨fun _ _ _ _ _ => rfl, fun _ _ _ _ => rfl⟩
